import Mathlib

/-!
Shallow embedding of the pi-eyes-scripts capture programs: the two-stage
loop of cat-detection.py and the single-stage loop of capture-interest.py.

Paths are modelled as segment lists (one segment per pathlib component,
after expanduser), the filesystem as a record of the currently existing
directories and files, and each loop iteration as a pure function from
the classifier predictions for this iteration to a new filesystem state,
an iteration outcome, and a trace of the observable events (captures,
classifier invocations, file writes, sleeps, prints).
-/

abbrev FsPath := List String

def pathToString (p : FsPath) : String := String.intercalate "/" p

/-- pathlib semantics of root.joinpath(name) for a single-segment name:
joining the empty string returns the path unchanged, any other name is
appended as one more component. -/
def joinpath (p : FsPath) (s : String) : FsPath :=
  if s = "" then p else p ++ [s]

/-- python str.strip(): drop leading and trailing whitespace. Defined by
structural list recursion so that it evaluates inside the kernel. -/
def strip (s : String) : String :=
  ⟨((s.data.dropWhile Char.isWhitespace).reverse.dropWhile Char.isWhitespace).reverse⟩

structure FS where
  dirs : List FsPath
  files : List FsPath
deriving DecidableEq, Repr

def FS.isDir (fs : FS) (p : FsPath) : Bool := fs.dirs.contains p

def FS.isFile (fs : FS) (p : FsPath) : Bool := fs.files.contains p

def FS.pathExists (fs : FS) (p : FsPath) : Bool := fs.isDir p || fs.isFile p

/-- os.mkdir: fails if the path already exists or if its parent is not an
existing directory; otherwise records the new directory. -/
def os_mkdir (fs : FS) (p : FsPath) : Except String FS :=
  if fs.pathExists p then .error "FileExistsError"
  else if fs.isDir p.dropLast then .ok { fs with dirs := p :: fs.dirs }
  else .error "FileNotFoundError"

/-- PIL Image.save: fails if the target path is an existing directory or
its parent is not an existing directory; otherwise records (or
overwrites) the file. -/
def img_save (fs : FS) (p : FsPath) : Except String FS :=
  if fs.isDir p then .error "IsADirectoryError"
  else if fs.isDir p.dropLast then .ok { fs with files := p :: fs.files }
  else .error "FileNotFoundError"

/-- cat-detection.py lines 21-32 (textually identical in
capture-interest.py): confirm that the path both exists and is a
directory, wrapping either failure in one message naming the path. -/
def validate_path (fs : FS) (path : FsPath) : Except String FsPath :=
  if fs.pathExists path = false then
    .error ("Unable to save to " ++ pathToString path ++ ", not a valid path")
  else if fs.isDir path = false then
    .error ("Unable to save to " ++ pathToString path ++ ", path is not a directory")
  else
    .ok path

/-- cat-detection.py lines 34-38: resolve root/dirname, creating the
directory only when nothing exists at that path yet. -/
def make_subdir (fs : FS) (root : FsPath) (dirname : String) :
    Except String (FS × FsPath) :=
  let directory := joinpath root dirname
  if fs.pathExists directory then .ok (fs, directory)
  else (os_mkdir fs directory).map fun fs2 => (fs2, directory)

/-! The label-string constants of the two scripts' `Labels(str, Enum)`
classes. cat-detection.py declares INTERESTING and UNINTERESTING;
capture-interest.py declares INTERESTING and NOT_INTERESTING. -/

namespace Labels

def INTERESTING : String := "interesting"

def UNINTERESTING : String := "uninteresting"

def NOT_INTERESTING : String := "not interesting"

end Labels

/-- A lobe ImageModel prediction: the top label, plus the ranked
(label, confidence) list. Confidence values are opaque to the loop, so
they are modelled as bare naturals. -/
structure ClassificationResult where
  prediction : String
  labels : List (String × Nat)
deriving DecidableEq, Repr

/-- One observable event of a loop iteration. -/
inductive Event where
  | annotate (text : Option String)
  | capture (img : Nat)
  | predictInterest (img : Nat) (label : String)
  | predictCategory (img : Nat) (label : String)
  | write (p : FsPath)
  | sleep (seconds : Nat)
  | printMsg (s : String)
deriving DecidableEq, Repr

/-- How the python process ends. A bare exit() raises SystemExit None;
an exception that reaches the interpreter prints a traceback. -/
inductive PyTermination where
  | normal
  | sysExit (code : Option Nat)
  | uncaught (exc : String)
deriving DecidableEq, Repr

/-- The interpreter's exit status: falling off the end and SystemExit
None both exit 0; SystemExit c exits c; an uncaught exception exits 1. -/
def PyTermination.status : PyTermination → Nat
  | .normal => 0
  | .sysExit none => 0
  | .sysExit (some c) => c
  | .uncaught _ => 1

/-- Result of one pass through a loop body: either the loop continues
after sleeping, or the process terminates. -/
inductive IterOutcome where
  | next (sleptFor : Nat)
  | terminated (t : PyTermination)
deriving DecidableEq, Repr

def IterOutcome.isTermination : IterOutcome → Bool
  | .next _ => false
  | .terminated _ => true

def writtenPaths (evs : List Event) : List FsPath :=
  evs.filterMap fun e => match e with | .write p => some p | _ => none

def printedMsgs (evs : List Event) : List String :=
  evs.filterMap fun e => match e with | .printMsg s => some s | _ => none

def capturedImgs (evs : List Event) : List Nat :=
  evs.filterMap fun e => match e with | .capture i => some i | _ => none

def categoryCalls (evs : List Event) : List (Nat × String) :=
  evs.filterMap fun e => match e with | .predictCategory i l => some (i, l) | _ => none

def sleepsOf (evs : List Event) : List Nat :=
  evs.filterMap fun e => match e with | .sleep n => some n | _ => none

/-- Loop-invariant state of the two-stage script, fixed before entering
the while-loop of cat-detection.py. -/
structure LoopState where
  fs : FS
  save_paths : List (String × FsPath)
  path_uninteresting : FsPath
  path_save : FsPath
deriving DecidableEq, Repr

/-- cat-detection.py lines 68-72: one make_subdir per label, in order,
recording each resulting path under its label. A python dict written in
this order maps each key to joinpath root key; duplicate labels
overwrite an entry with an equal value, so first-match lookup on this
association list is the same mapping. -/
def buildSavePaths (fs : FS) (root : FsPath) (labels : List String) :
    Except String (FS × List (String × FsPath)) :=
  match labels with
  | [] => .ok (fs, [])
  | l :: rest =>
    match make_subdir fs root l with
    | .error e => .error e
    | .ok (fs1, d) =>
      match buildSavePaths fs1 root rest with
      | .error e => .error e
      | .ok (fs2, sp) => .ok (fs2, (l, d) :: sp)

/-- cat-detection.py lines 63-72: create the reserved uninteresting
subdirectory, then strip each line of labels.txt and create one
subdirectory per stripped label. -/
def setupState (fs : FS) (root : FsPath) (labelLines : List String) :
    Except String LoopState :=
  match make_subdir fs root "uninteresting" with
  | .error e => .error e
  | .ok (fs1, path_uninteresting) =>
    match buildSavePaths fs1 root (labelLines.map strip) with
    | .error e => .error e
    | .ok (fs2, save_paths) =>
      .ok ⟨fs2, save_paths, path_uninteresting, root⟩

/-- cat-detection.py lines 81-120, one pass through the while-loop.
The branch is chosen on the interest prediction; inside the interesting
branch the category prediction replaces `label` and is used as the
save_paths key, where a missing key raises KeyError (uncaught, since
only KeyboardInterrupt is handled at top level). -/
def runIteration (check interval : Nat)
    (interestModel categoryModel : Nat → ClassificationResult)
    (st : LoopState) (img : Nat) (time_stamp : String) :
    LoopState × IterOutcome × List Event :=
  let pre : List Event := [.annotate none, .capture img]
  let result := interestModel img
  let label := result.prediction
  if label = Labels.INTERESTING then
    let result2 := categoryModel img
    let label2 := result2.prediction
    let evs := pre ++ [.predictInterest img label, .predictCategory img label2]
    match st.save_paths.lookup label2 with
    | none => (st, .terminated (.uncaught ("KeyError: " ++ label2)), evs)
    | some dir =>
      let save_filename := joinpath dir (time_stamp ++ ".jpg")
      match img_save st.fs save_filename with
      | .error e => (st, .terminated (.uncaught e), evs)
      | .ok fs2 =>
        ({ st with fs := fs2 }, .next interval,
         evs ++ [.write save_filename,
                 .annotate (some (label2 ++ "\n" ++ time_stamp)),
                 .sleep interval])
  else if label = Labels.UNINTERESTING then
    let evs := pre ++ [.predictInterest img label]
    let save_filename := joinpath st.path_uninteresting ("un-" ++ time_stamp ++ ".jpg")
    match img_save st.fs save_filename with
    | .error e => (st, .terminated (.uncaught e), evs)
    | .ok fs2 =>
      ({ st with fs := fs2 }, .next check,
       evs ++ [.write save_filename, .sleep check])
  else
    (st, .terminated (.sysExit none),
     pre ++ [.predictInterest img label,
             .printMsg ("Unexpected result: " ++ label)])

/-- capture-interest.py lines 59-101, one pass through the single-stage
while-loop: the annotation showing label, confidence and timestamp is
set before branching; the uninteresting directory is created lazily. -/
def runIterationCI (check interval : Nat)
    (model : Nat → ClassificationResult)
    (fs : FS) (path_save : FsPath) (img : Nat) (time_stamp : String) :
    FS × IterOutcome × List Event :=
  let pre : List Event := [.annotate none, .capture img]
  let result := model img
  let label := result.prediction
  match result.labels.head? with
  | none => (fs, .terminated (.uncaught "IndexError"),
             pre ++ [.predictInterest img label])
  | some lc =>
    let confidence := lc.2
    let evs := pre ++ [.predictInterest img label,
      .annotate (some (label ++ "\n" ++ toString confidence ++ "\n" ++ time_stamp))]
    if label = Labels.INTERESTING then
      let save_filename := joinpath path_save (time_stamp ++ ".jpg")
      match img_save fs save_filename with
      | .error e => (fs, .terminated (.uncaught e), evs)
      | .ok fs2 => (fs2, .next interval, evs ++ [.write save_filename, .sleep interval])
    else if label = Labels.NOT_INTERESTING then
      let udir := joinpath path_save "uninteresting"
      let mkRes : Except String FS := if fs.pathExists udir then .ok fs else os_mkdir fs udir
      match mkRes with
      | .error e => (fs, .terminated (.uncaught e), evs)
      | .ok fs1 =>
        let save_filename := joinpath udir ("un-" ++ time_stamp ++ ".jpg")
        match img_save fs1 save_filename with
        | .error e => (fs1, .terminated (.uncaught e), evs)
        | .ok fs2 => (fs2, .next check, evs ++ [.write save_filename, .sleep check])
    else
      (fs, .terminated (.sysExit none),
       evs ++ [.printMsg ("Unexpected result: " ++ label)])

/-- Startup-phase observable events of cat-detection.py. -/
inductive StartEvent where
  | printMsg (s : String)
  | loadModel (p : FsPath)
  | openCamera
deriving DecidableEq, Repr

/-- cat-detection.py lines 40-60: validate the three paths in order,
printing a progress line after each success; on the first failure print
the error and call exit(). Only after all three succeed are the two
models loaded and the camera opened. -/
def mainStartup (fs : FS) (save_to interest categories : FsPath) :
    Option (FsPath × FsPath × FsPath) × List StartEvent × Option PyTermination :=
  match validate_path fs save_to with
  | .error e => (none, [.printMsg e], some (.sysExit none))
  | .ok path_save =>
    let ev1 : StartEvent := .printMsg ("Saving images to " ++ pathToString save_to)
    match validate_path fs interest with
    | .error e => (none, [ev1, .printMsg e], some (.sysExit none))
    | .ok path_interest =>
      let ev2 : StartEvent := .printMsg ("Loading model from " ++ pathToString interest)
      match validate_path fs categories with
      | .error e => (none, [ev1, ev2, .printMsg e], some (.sysExit none))
      | .ok path_categories =>
        let ev3 : StartEvent := .printMsg ("Loading model from " ++ pathToString categories)
        (some (path_save, path_interest, path_categories),
         [ev1, ev2, ev3, .loadModel path_interest, .loadModel path_categories,
          .openCamera],
         none)

/-- cat-detection.py lines 143-145: the KeyboardInterrupt handler prints
a blank line and an acknowledgment, then the script ends normally. -/
def keyboardInterruptHandler : List String × PyTermination :=
  (["", "Caught interrupt, exiting..."], .normal)

/-! Concrete fixtures used to evaluate the model on explicit inputs. -/

def fsDemo : FS := ⟨[["out"]], []⟩

def rootDemo : FsPath := ["out"]

/-- The loop state that setupState fsDemo rootDemo ["cat"] produces. -/
def stDemo : LoopState :=
  ⟨⟨[["out", "cat"], ["out", "uninteresting"], ["out"]], []⟩,
   [("cat", ["out", "cat"])], ["out", "uninteresting"], ["out"]⟩

def interestingModel : Nat → ClassificationResult :=
  fun _ => ⟨Labels.INTERESTING, [(Labels.INTERESTING, 95)]⟩

def uninterestingModel : Nat → ClassificationResult :=
  fun _ => ⟨Labels.UNINTERESTING, [(Labels.UNINTERESTING, 80)]⟩

def catModel : Nat → ClassificationResult := fun _ => ⟨"cat", [("cat", 90)]⟩

def dogModel : Nat → ClassificationResult := fun _ => ⟨"dog", [("dog", 90)]⟩

def bananaModel : Nat → ClassificationResult := fun _ => ⟨"banana", [("banana", 50)]⟩

def emptyLabelModel : Nat → ClassificationResult := fun _ => ⟨"", [("", 50)]⟩

/-! Helper lemmas about the filesystem model and the startup phase. -/

theorem append_ne_empty_right (s t : String) (h : t ≠ "") : s ++ t ≠ "" := by
  intro hc
  apply h
  have hd := congrArg String.data hc
  rw [String.data_append] at hd
  exact String.ext (List.append_eq_nil.mp hd).2

theorem joinpath_of_ne (p : FsPath) (s : String) (h : s ≠ "") :
    joinpath p s = p ++ [s] := by
  simp [joinpath, h]

theorem img_save_ok (fs : FS) (dir : FsPath) (name : String)
    (hname : name ≠ "") (hdir : fs.isDir dir = true)
    (hnotdir : fs.isDir (joinpath dir name) = false) :
    img_save fs (joinpath dir name) =
      .ok { fs with files := joinpath dir name :: fs.files } := by
  have hj : joinpath dir name = dir ++ [name] := joinpath_of_ne dir name hname
  rw [hj] at hnotdir
  simp [img_save, hnotdir, hj, hdir]

theorem make_subdir_spec (fs : FS) (root : FsPath) (d : String)
    (hroot : fs.isDir root = true) :
    ∃ fs2, make_subdir fs root d = .ok (fs2, joinpath root d) ∧
      fs2.files = fs.files ∧
      (∀ q, fs.isDir q = true → fs2.isDir q = true) ∧
      (fs.isFile (joinpath root d) = false → fs2.isDir (joinpath root d) = true) := by
  by_cases hex : fs.pathExists (joinpath root d) = true
  · refine ⟨fs, ?_, rfl, fun q h => h, fun hnf => ?_⟩
    · simp [make_subdir, hex]
    · have h2 := hex
      simp [FS.pathExists, hnf] at h2
      exact h2
  · have hex' : fs.pathExists (joinpath root d) = false := by
      simpa using hex
    have hdne : d ≠ "" := by
      intro h0
      rw [h0] at hex'
      simp [joinpath, FS.pathExists, hroot] at hex'
    have hpe : joinpath root d = root ++ [d] := joinpath_of_ne root d hdne
    have hdl : (joinpath root d).dropLast = root := by
      rw [hpe]
      exact List.dropLast_concat
    refine ⟨{ fs with dirs := joinpath root d :: fs.dirs }, ?_, rfl, ?_, ?_⟩
    · simp [make_subdir, hex', os_mkdir, hdl, hroot, Except.map]
    · intro q h
      simp [FS.isDir] at h ⊢
      exact Or.inr h
    · intro _
      simp [FS.isDir]

theorem buildSavePaths_spec (labels : List String) (fs : FS) (root : FsPath)
    (hroot : fs.isDir root = true)
    (hfiles : ∀ l ∈ labels, fs.isFile (joinpath root l) = false) :
    ∃ fs2, buildSavePaths fs root labels =
        .ok (fs2, labels.map fun l => (l, joinpath root l)) ∧
      fs2.files = fs.files ∧
      (∀ q, fs.isDir q = true → fs2.isDir q = true) ∧
      (∀ l ∈ labels, fs2.isDir (joinpath root l) = true) := by
  induction labels generalizing fs with
  | nil => exact ⟨fs, rfl, rfl, fun q h => h, by simp⟩
  | cons l rest ih =>
    obtain ⟨fs1, hmk, hf1, hdirs1, hmkdir⟩ := make_subdir_spec fs root l hroot
    have hroot1 : fs1.isDir root = true := hdirs1 root hroot
    have hfiles1 : ∀ x ∈ rest, fs1.isFile (joinpath root x) = false := by
      intro x hx
      have hh := hfiles x (List.mem_cons_of_mem _ hx)
      simpa [FS.isFile, hf1] using hh
    obtain ⟨fs2, hbuild, hf2, hdirs2, hall⟩ := ih fs1 hroot1 hfiles1
    refine ⟨fs2, ?_, by rw [hf2, hf1], fun q h => hdirs2 q (hdirs1 q h), ?_⟩
    · simp [buildSavePaths, hmk, hbuild]
    · intro x hx
      rcases List.mem_cons.mp hx with h | h
      · subst h
        exact hdirs2 _ (hmkdir (hfiles x (List.mem_cons_self _ _)))
      · exact hall x h

theorem lookup_labelMap (root : FsPath) (labels : List String) (l : String)
    (h : l ∈ labels) :
    (labels.map fun x => (x, joinpath root x)).lookup l = some (joinpath root l) := by
  induction labels with
  | nil => cases h
  | cons x rest ih =>
    by_cases hx : l = x
    · subst hx
      simp [List.lookup]
    · have h1 : l ∈ rest := by
        rcases List.mem_cons.mp h with h2 | h2
        · exact absurd h2 hx
        · exact h2
      have hbeq : (l == x) = false := beq_eq_false_iff_ne.mpr hx
      simpa [List.lookup, hbeq] using ih h1

theorem lookup_labelMap_none (root : FsPath) (labels : List String) (l : String)
    (h : l ∉ labels) :
    (labels.map fun x => (x, joinpath root x)).lookup l = none := by
  induction labels with
  | nil => rfl
  | cons x rest ih =>
    have hx : l ≠ x := fun h0 => h (h0 ▸ List.mem_cons_self x rest)
    have h1 : l ∉ rest := fun h0 => h (List.mem_cons_of_mem _ h0)
    have hbeq : (l == x) = false := beq_eq_false_iff_ne.mpr hx
    simpa [List.lookup, hbeq] using ih h1

theorem setupState_spec (fs : FS) (root : FsPath) (labelLines : List String)
    (hroot : fs.isDir root = true)
    (hfu : fs.isFile (joinpath root "uninteresting") = false)
    (hfl : ∀ l ∈ labelLines.map strip, fs.isFile (joinpath root l) = false) :
    ∃ st, setupState fs root labelLines = .ok st ∧
      st.path_save = root ∧
      st.path_uninteresting = joinpath root "uninteresting" ∧
      st.save_paths = (labelLines.map strip).map (fun l => (l, joinpath root l)) ∧
      st.fs.isDir root = true ∧
      st.fs.isDir (joinpath root "uninteresting") = true ∧
      (∀ l ∈ labelLines.map strip, st.fs.isDir (joinpath root l) = true) ∧
      st.fs.files = fs.files := by
  obtain ⟨fs1, hmk, hf1, hdirs1, hmkdir⟩ := make_subdir_spec fs root "uninteresting" hroot
  have hroot1 : fs1.isDir root = true := hdirs1 root hroot
  have hu1 : fs1.isDir (joinpath root "uninteresting") = true := hmkdir hfu
  have hfl1 : ∀ l ∈ labelLines.map strip, fs1.isFile (joinpath root l) = false := by
    intro l hl
    have hh := hfl l hl
    simpa [FS.isFile, hf1] using hh
  obtain ⟨fs2, hbuild, hf2, hdirs2, hall⟩ :=
    buildSavePaths_spec (labelLines.map strip) fs1 root hroot1 hfl1
  refine ⟨⟨fs2, _, _, root⟩, ?_, rfl, rfl, rfl,
    hdirs2 _ hroot1, hdirs2 _ hu1, fun l hl => hall l hl, by rw [hf2, hf1]⟩
  have hju : joinpath root "uninteresting" = root ++ ["uninteresting"] :=
    joinpath_of_ne root "uninteresting" (by decide)
  simp only [setupState, hmk, hbuild, hju]

theorem validate_path_cases (fs : FS) (p : FsPath) :
    (fs.pathExists p = true ∧ fs.isDir p = true ∧ validate_path fs p = .ok p) ∨
    ((fs.pathExists p = false ∨ fs.isDir p = false) ∧
      ∃ e, validate_path fs p = .error e) := by
  by_cases he : fs.pathExists p = false
  · exact Or.inr ⟨Or.inl he,
      "Unable to save to " ++ pathToString p ++ ", not a valid path",
      by simp [validate_path, he]⟩
  · have he' : fs.pathExists p = true := by
      cases h : fs.pathExists p
      · exact absurd h he
      · rfl
    by_cases hd : fs.isDir p = false
    · refine Or.inr ⟨Or.inr hd,
        "Unable to save to " ++ pathToString p ++ ", path is not a directory", ?_⟩
      simp [validate_path, he', hd]
    · have hd' : fs.isDir p = true := by
        cases h : fs.isDir p
        · exact absurd h hd
        · rfl
      exact Or.inl ⟨he', hd', by simp [validate_path, he', hd']⟩

/-- Claim C6: directory resolution for the routing table is idempotent:
for any existing root directory and any label name, invoking make_subdir
twice with the same arguments never errors, and both invocations return
directories that compare equal. -/
theorem claim_C6_make_subdir_idempotent (fs : FS) (root : FsPath) (dirname : String)
    (hroot : fs.isDir root = true) :
    ∃ fs1 p1, make_subdir fs root dirname = .ok (fs1, p1) ∧
      ∃ fs2 p2, make_subdir fs1 root dirname = .ok (fs2, p2) ∧ p1 = p2 := by
  obtain ⟨fs1, h1, _, hdirs1, _⟩ := make_subdir_spec fs root dirname hroot
  obtain ⟨fs2, h2, _, _, _⟩ := make_subdir_spec fs1 root dirname (hdirs1 root hroot)
  exact ⟨fs1, _, h1, fs2, _, h2, rfl⟩

theorem claim_C6_witness :
    fsDemo.isDir rootDemo = true ∧
    (∃ fs1 p1, make_subdir fsDemo rootDemo "cat" = .ok (fs1, p1) ∧
      ∃ fs2 p2, make_subdir fs1 rootDemo "cat" = .ok (fs2, p2) ∧ p1 = p2) :=
  ⟨by decide, claim_C6_make_subdir_idempotent fsDemo rootDemo "cat" (by decide)⟩

/-! Branch-shape lemmas for the two-stage loop body. -/

theorem runIteration_interesting_ok (check interval : Nat)
    (iM cM : Nat → ClassificationResult) (st : LoopState) (img : Nat) (ts : String)
    (dir : FsPath) (fs2 : FS)
    (hI : (iM img).prediction = Labels.INTERESTING)
    (hlk : st.save_paths.lookup ((cM img).prediction) = some dir)
    (hsv : img_save st.fs (joinpath dir (ts ++ ".jpg")) = .ok fs2) :
    runIteration check interval iM cM st img ts =
      ({ st with fs := fs2 }, .next interval,
       [.annotate none, .capture img,
        .predictInterest img (iM img).prediction,
        .predictCategory img ((cM img).prediction),
        .write (joinpath dir (ts ++ ".jpg")),
        .annotate (some ((cM img).prediction ++ "\n" ++ ts)),
        .sleep interval]) := by
  simp only [runIteration, hI, if_true, hlk, hsv]
  rfl

theorem runIteration_interesting_keyerror (check interval : Nat)
    (iM cM : Nat → ClassificationResult) (st : LoopState) (img : Nat) (ts : String)
    (hI : (iM img).prediction = Labels.INTERESTING)
    (hlk : st.save_paths.lookup ((cM img).prediction) = none) :
    runIteration check interval iM cM st img ts =
      (st, .terminated (.uncaught ("KeyError: " ++ (cM img).prediction)),
       [.annotate none, .capture img,
        .predictInterest img (iM img).prediction,
        .predictCategory img ((cM img).prediction)]) := by
  simp only [runIteration, hI, if_true, hlk]
  rfl

theorem runIteration_interesting_saveerr (check interval : Nat)
    (iM cM : Nat → ClassificationResult) (st : LoopState) (img : Nat) (ts : String)
    (dir : FsPath) (e : String)
    (hI : (iM img).prediction = Labels.INTERESTING)
    (hlk : st.save_paths.lookup ((cM img).prediction) = some dir)
    (hsv : img_save st.fs (joinpath dir (ts ++ ".jpg")) = .error e) :
    runIteration check interval iM cM st img ts =
      (st, .terminated (.uncaught e),
       [.annotate none, .capture img,
        .predictInterest img (iM img).prediction,
        .predictCategory img ((cM img).prediction)]) := by
  simp only [runIteration, hI, if_true, hlk, hsv]
  rfl

theorem runIteration_uninteresting_ok (check interval : Nat)
    (iM cM : Nat → ClassificationResult) (st : LoopState) (img : Nat) (ts : String)
    (fs2 : FS)
    (hU : (iM img).prediction = Labels.UNINTERESTING)
    (hsv : img_save st.fs (joinpath st.path_uninteresting ("un-" ++ ts ++ ".jpg")) = .ok fs2) :
    runIteration check interval iM cM st img ts =
      ({ st with fs := fs2 }, .next check,
       [.annotate none, .capture img,
        .predictInterest img (iM img).prediction,
        .write (joinpath st.path_uninteresting ("un-" ++ ts ++ ".jpg")),
        .sleep check]) := by
  have hI : ¬ (iM img).prediction = Labels.INTERESTING := by
    rw [hU]; decide
  simp only [runIteration, hI, if_false, hU, if_true, hsv]
  rfl

theorem runIteration_uninteresting_saveerr (check interval : Nat)
    (iM cM : Nat → ClassificationResult) (st : LoopState) (img : Nat) (ts : String)
    (e : String)
    (hU : (iM img).prediction = Labels.UNINTERESTING)
    (hsv : img_save st.fs (joinpath st.path_uninteresting ("un-" ++ ts ++ ".jpg")) = .error e) :
    runIteration check interval iM cM st img ts =
      (st, .terminated (.uncaught e),
       [.annotate none, .capture img,
        .predictInterest img (iM img).prediction]) := by
  have hI : ¬ (iM img).prediction = Labels.INTERESTING := by
    rw [hU]; decide
  simp only [runIteration, hI, if_false, hU, if_true, hsv]
  rfl

theorem runIteration_unrecognized (check interval : Nat)
    (iM cM : Nat → ClassificationResult) (st : LoopState) (img : Nat) (ts : String)
    (hI : ¬ (iM img).prediction = Labels.INTERESTING)
    (hU : ¬ (iM img).prediction = Labels.UNINTERESTING) :
    runIteration check interval iM cM st img ts =
      (st, .terminated (.sysExit none),
       [.annotate none, .capture img,
        .predictInterest img (iM img).prediction,
        .printMsg ("Unexpected result: " ++ (iM img).prediction)]) := by
  simp only [runIteration, hI, if_false, hU]
  rfl

/-! Branch-shape lemmas for the single-stage loop body. -/

theorem runIterationCI_indexerror (check interval : Nat)
    (model : Nat → ClassificationResult) (fs : FS) (path_save : FsPath)
    (img : Nat) (ts : String)
    (hhd : (model img).labels.head? = none) :
    runIterationCI check interval model fs path_save img ts =
      (fs, .terminated (.uncaught "IndexError"),
       [.annotate none, .capture img, .predictInterest img (model img).prediction]) := by
  simp only [runIterationCI, hhd]
  rfl

theorem runIterationCI_interesting_ok (check interval : Nat)
    (model : Nat → ClassificationResult) (fs : FS) (path_save : FsPath)
    (img : Nat) (ts : String) (lc : String × Nat) (fs2 : FS)
    (hhd : (model img).labels.head? = some lc)
    (hI : (model img).prediction = Labels.INTERESTING)
    (hsv : img_save fs (joinpath path_save (ts ++ ".jpg")) = .ok fs2) :
    runIterationCI check interval model fs path_save img ts =
      (fs2, .next interval,
       [.annotate none, .capture img,
        .predictInterest img (model img).prediction,
        .annotate (some ((model img).prediction ++ "\n" ++ toString lc.2 ++ "\n" ++ ts)),
        .write (joinpath path_save (ts ++ ".jpg")),
        .sleep interval]) := by
  simp only [runIterationCI, hhd, hI, if_true, hsv]
  rfl

theorem runIterationCI_interesting_saveerr (check interval : Nat)
    (model : Nat → ClassificationResult) (fs : FS) (path_save : FsPath)
    (img : Nat) (ts : String) (lc : String × Nat) (e : String)
    (hhd : (model img).labels.head? = some lc)
    (hI : (model img).prediction = Labels.INTERESTING)
    (hsv : img_save fs (joinpath path_save (ts ++ ".jpg")) = .error e) :
    runIterationCI check interval model fs path_save img ts =
      (fs, .terminated (.uncaught e),
       [.annotate none, .capture img,
        .predictInterest img (model img).prediction,
        .annotate (some ((model img).prediction ++ "\n" ++ toString lc.2 ++ "\n" ++ ts))]) := by
  simp only [runIterationCI, hhd, hI, if_true, hsv]
  rfl

theorem runIterationCI_notInteresting_ok (check interval : Nat)
    (model : Nat → ClassificationResult) (fs : FS) (path_save : FsPath)
    (img : Nat) (ts : String) (lc : String × Nat) (fs1 fs2 : FS)
    (hhd : (model img).labels.head? = some lc)
    (hN : (model img).prediction = Labels.NOT_INTERESTING)
    (hmk : (if fs.pathExists (joinpath path_save "uninteresting") then Except.ok fs
            else os_mkdir fs (joinpath path_save "uninteresting")) = Except.ok fs1)
    (hsv : img_save fs1 (joinpath (joinpath path_save "uninteresting")
            ("un-" ++ ts ++ ".jpg")) = .ok fs2) :
    runIterationCI check interval model fs path_save img ts =
      (fs2, .next check,
       [.annotate none, .capture img,
        .predictInterest img (model img).prediction,
        .annotate (some ((model img).prediction ++ "\n" ++ toString lc.2 ++ "\n" ++ ts)),
        .write (joinpath (joinpath path_save "uninteresting") ("un-" ++ ts ++ ".jpg")),
        .sleep check]) := by
  have hI : ¬ (model img).prediction = Labels.INTERESTING := by
    rw [hN]; decide
  simp only [runIterationCI, hhd, hI, if_false, hN, if_true, hmk, hsv]
  rfl

theorem runIterationCI_unrecognized (check interval : Nat)
    (model : Nat → ClassificationResult) (fs : FS) (path_save : FsPath)
    (img : Nat) (ts : String) (lc : String × Nat)
    (hhd : (model img).labels.head? = some lc)
    (hI : ¬ (model img).prediction = Labels.INTERESTING)
    (hN : ¬ (model img).prediction = Labels.NOT_INTERESTING) :
    runIterationCI check interval model fs path_save img ts =
      (fs, .terminated (.sysExit none),
       [.annotate none, .capture img,
        .predictInterest img (model img).prediction,
        .annotate (some ((model img).prediction ++ "\n" ++ toString lc.2 ++ "\n" ++ ts)),
        .printMsg ("Unexpected result: " ++ (model img).prediction)]) := by
  simp only [runIterationCI, hhd, hI, if_false, hN]
  rfl

/-- Claim C5: startup path validation rejects every nonexistent path and
every existing path that is not a directory, and any such rejection
aborts the process (print the diagnostic, then exit) before any model is
loaded or the camera is opened. -/
theorem claim_C5_startup_validation (fs : FS) (save_to interest categories : FsPath)
    (h : (fs.pathExists save_to = false ∨ fs.isDir save_to = false) ∨
         (fs.pathExists interest = false ∨ fs.isDir interest = false) ∨
         (fs.pathExists categories = false ∨ fs.isDir categories = false)) :
    (mainStartup fs save_to interest categories).1 = none ∧
    (∀ p, StartEvent.loadModel p ∉ (mainStartup fs save_to interest categories).2.1) ∧
    StartEvent.openCamera ∉ (mainStartup fs save_to interest categories).2.1 ∧
    (mainStartup fs save_to interest categories).2.2 = some (.sysExit none) := by
  rcases validate_path_cases fs save_to with ⟨he1, hd1, hv1⟩ | ⟨_, e1, hv1⟩
  · rcases validate_path_cases fs interest with ⟨he2, hd2, hv2⟩ | ⟨_, e2, hv2⟩
    · rcases validate_path_cases fs categories with ⟨he3, hd3, hv3⟩ | ⟨_, e3, hv3⟩
      · exfalso
        rcases h with (h | h) | (h | h) | (h | h) <;> simp_all
      · simp [mainStartup, hv1, hv2, hv3]
    · simp [mainStartup, hv1, hv2]
  · simp [mainStartup, hv1]

theorem claim_C5_witness :
    (FS.mk [] []).pathExists ["out"] = false ∧
    (mainStartup ⟨[], []⟩ ["out"] ["m1"] ["m2"]).1 = none ∧
    (mainStartup ⟨[], []⟩ ["out"] ["m1"] ["m2"]).2.2 = some (.sysExit none) :=
  ⟨by decide,
   (claim_C5_startup_validation ⟨[], []⟩ ["out"] ["m1"] ["m2"]
     (Or.inl (Or.inl (by decide)))).1,
   (claim_C5_startup_validation ⟨[], []⟩ ["out"] ["m1"] ["m2"]
     (Or.inl (Or.inl (by decide)))).2.2.2⟩

/-- Claim C4: in both scripts, an iteration that completes the
interesting branch sleeps exactly the configured capture interval and an
iteration that completes the uninteresting branch sleeps exactly the
configured check interval; the two durations are independent parameters
(both are universally quantified here, so each branch's sleep is the
respective parameter whatever the other is set to). -/
theorem claim_C4_sleep_intervals (check interval : Nat)
    (iM cM model : Nat → ClassificationResult) (st : LoopState)
    (fs : FS) (path_save : FsPath) (img : Nat) (ts : String) :
    (∀ s, (runIteration check interval iM cM st img ts).2.1 = .next s →
      (((iM img).prediction = Labels.INTERESTING → s = interval ∧
          sleepsOf (runIteration check interval iM cM st img ts).2.2 = [interval]) ∧
       ((iM img).prediction = Labels.UNINTERESTING → s = check ∧
          sleepsOf (runIteration check interval iM cM st img ts).2.2 = [check]))) ∧
    (∀ s, (runIterationCI check interval model fs path_save img ts).2.1 = .next s →
      (((model img).prediction = Labels.INTERESTING → s = interval ∧
          sleepsOf (runIterationCI check interval model fs path_save img ts).2.2 = [interval]) ∧
       ((model img).prediction = Labels.NOT_INTERESTING → s = check ∧
          sleepsOf (runIterationCI check interval model fs path_save img ts).2.2 = [check]))) := by
  constructor
  · intro s hs
    by_cases hI : (iM img).prediction = Labels.INTERESTING
    · have hU : ¬ (iM img).prediction = Labels.UNINTERESTING := by
        rw [hI]; decide
      refine ⟨fun _ => ?_, fun h => absurd h hU⟩
      rcases hlk : st.save_paths.lookup ((cM img).prediction) with _ | dir
      · rw [runIteration_interesting_keyerror check interval iM cM st img ts hI hlk] at hs
        simp at hs
      · rcases hsv : img_save st.fs (joinpath dir (ts ++ ".jpg")) with e | fs2
        · rw [runIteration_interesting_saveerr check interval iM cM st img ts dir e hI hlk hsv] at hs
          simp at hs
        · rw [runIteration_interesting_ok check interval iM cM st img ts dir fs2 hI hlk hsv] at hs
          rw [runIteration_interesting_ok check interval iM cM st img ts dir fs2 hI hlk hsv]
          simp at hs
          exact ⟨hs.symm, by simp [sleepsOf]⟩
    · by_cases hU : (iM img).prediction = Labels.UNINTERESTING
      · refine ⟨fun h => absurd h hI, fun _ => ?_⟩
        rcases hsv : img_save st.fs (joinpath st.path_uninteresting ("un-" ++ ts ++ ".jpg")) with e | fs2
        · rw [runIteration_uninteresting_saveerr check interval iM cM st img ts e hU hsv] at hs
          simp at hs
        · rw [runIteration_uninteresting_ok check interval iM cM st img ts fs2 hU hsv] at hs
          rw [runIteration_uninteresting_ok check interval iM cM st img ts fs2 hU hsv]
          simp at hs
          exact ⟨hs.symm, by simp [sleepsOf]⟩
      · rw [runIteration_unrecognized check interval iM cM st img ts hI hU] at hs
        simp at hs
  · intro s hs
    rcases hhd : (model img).labels.head? with _ | lc
    · rw [runIterationCI_indexerror check interval model fs path_save img ts hhd] at hs
      simp at hs
    · by_cases hI : (model img).prediction = Labels.INTERESTING
      · have hN : ¬ (model img).prediction = Labels.NOT_INTERESTING := by
          rw [hI]; decide
        refine ⟨fun _ => ?_, fun h => absurd h hN⟩
        rcases hsv : img_save fs (joinpath path_save (ts ++ ".jpg")) with e | fs2
        · rw [runIterationCI_interesting_saveerr check interval model fs path_save img ts lc e hhd hI hsv] at hs
          simp at hs
        · rw [runIterationCI_interesting_ok check interval model fs path_save img ts lc fs2 hhd hI hsv] at hs
          rw [runIterationCI_interesting_ok check interval model fs path_save img ts lc fs2 hhd hI hsv]
          simp at hs
          exact ⟨hs.symm, by simp [sleepsOf]⟩
      · by_cases hN : (model img).prediction = Labels.NOT_INTERESTING
        · refine ⟨fun h => absurd h hI, fun _ => ?_⟩
          rcases hmk : (if fs.pathExists (joinpath path_save "uninteresting") then Except.ok fs
              else os_mkdir fs (joinpath path_save "uninteresting")) with e | fs1
          · rw [runIterationCI] at hs
            have hne : ¬ (Labels.NOT_INTERESTING = Labels.INTERESTING) := by decide
            simp only [hhd, hI, if_false, hN, if_true, hmk, hne] at hs
            simp at hs
          · rcases hsv : img_save fs1 (joinpath (joinpath path_save "uninteresting")
                ("un-" ++ ts ++ ".jpg")) with e | fs2
            · rw [runIterationCI] at hs
              have hne : ¬ (Labels.NOT_INTERESTING = Labels.INTERESTING) := by decide
              simp only [hhd, hI, if_false, hN, if_true, hmk, hsv, hne] at hs
              simp at hs
            · rw [runIterationCI_notInteresting_ok check interval model fs path_save img ts lc fs1 fs2 hhd hN hmk hsv] at hs
              rw [runIterationCI_notInteresting_ok check interval model fs path_save img ts lc fs1 fs2 hhd hN hmk hsv]
              simp at hs
              exact ⟨hs.symm, by simp [sleepsOf]⟩
        · rw [runIterationCI_unrecognized check interval model fs path_save img ts lc hhd hI hN] at hs
          simp at hs

theorem claim_C4_witness :
    (runIteration 5 1 interestingModel catModel stDemo 0 "T").2.1 = .next 1 ∧
    (interestingModel 0).prediction = Labels.INTERESTING ∧
    ((1 : Nat) = 1 ∧
      sleepsOf (runIteration 5 1 interestingModel catModel stDemo 0 "T").2.2 = [1]) :=
  ⟨by decide, by decide,
   ((claim_C4_sleep_intervals 5 1 interestingModel catModel interestingModel stDemo
       stDemo.fs ["out"] 0 "T").1 1 (by decide)).1 (by decide)⟩

/-- Claim C7: in every two-stage iteration the category classifier is
invoked exactly when the interest classifier returned INTERESTING for
that iteration, it is invoked on the same captured image with the
category prediction for that image, and exactly one capture occurs (no
re-capture between the two classifications). -/
theorem claim_C7_category_iff_interesting (check interval : Nat)
    (iM cM : Nat → ClassificationResult) (st : LoopState) (img : Nat) (ts : String) :
    (categoryCalls (runIteration check interval iM cM st img ts).2.2 =
        [(img, (cM img).prediction)] ↔
      (iM img).prediction = Labels.INTERESTING) ∧
    (categoryCalls (runIteration check interval iM cM st img ts).2.2 = [] ∨
      categoryCalls (runIteration check interval iM cM st img ts).2.2 =
        [(img, (cM img).prediction)]) ∧
    capturedImgs (runIteration check interval iM cM st img ts).2.2 = [img] := by
  by_cases hI : (iM img).prediction = Labels.INTERESTING
  · rcases hlk : st.save_paths.lookup ((cM img).prediction) with _ | dir
    · rw [runIteration_interesting_keyerror check interval iM cM st img ts hI hlk]
      refine ⟨?_, ?_, ?_⟩ <;> simp [categoryCalls, capturedImgs, hI]
    · rcases hsv : img_save st.fs (joinpath dir (ts ++ ".jpg")) with e | fs2
      · rw [runIteration_interesting_saveerr check interval iM cM st img ts dir e hI hlk hsv]
        refine ⟨?_, ?_, ?_⟩ <;> simp [categoryCalls, capturedImgs, hI]
      · rw [runIteration_interesting_ok check interval iM cM st img ts dir fs2 hI hlk hsv]
        refine ⟨?_, ?_, ?_⟩ <;> simp [categoryCalls, capturedImgs, hI]
  · by_cases hU : (iM img).prediction = Labels.UNINTERESTING
    · rcases hsv : img_save st.fs
          (joinpath st.path_uninteresting ("un-" ++ ts ++ ".jpg")) with e | fs2
      · rw [runIteration_uninteresting_saveerr check interval iM cM st img ts e hU hsv]
        refine ⟨?_, ?_, ?_⟩ <;> simp [categoryCalls, capturedImgs, hI]
      · rw [runIteration_uninteresting_ok check interval iM cM st img ts fs2 hU hsv]
        refine ⟨?_, ?_, ?_⟩ <;> simp [categoryCalls, capturedImgs, hI]
    · rw [runIteration_unrecognized check interval iM cM st img ts hI hU]
      refine ⟨?_, ?_, ?_⟩ <;> simp [categoryCalls, capturedImgs, hI]

/-- Claim C1: after a successful two-stage setup, an iteration whose
interest classification is INTERESTING and whose category label is a
member of the configured label set writes the image to exactly
root/<label>/<timestamp>.jpg, and that directory already exists before
the write; an iteration whose interest classification is UNINTERESTING
writes the image to exactly root/uninteresting/un-<timestamp>.jpg. -/
theorem claim_C1_routing (fs : FS) (root : FsPath) (labelLines : List String)
    (check interval : Nat) (iM cM : Nat → ClassificationResult)
    (img : Nat) (ts : String) (st : LoopState)
    (hroot : fs.isDir root = true)
    (hfu : fs.isFile (joinpath root "uninteresting") = false)
    (hfl : ∀ l ∈ labelLines.map strip, fs.isFile (joinpath root l) = false)
    (hset : setupState fs root labelLines = .ok st) :
    ((iM img).prediction = Labels.INTERESTING →
      ∀ l, (cM img).prediction = l → l ∈ labelLines.map strip →
      st.fs.isDir (joinpath (joinpath root l) (ts ++ ".jpg")) = false →
      st.fs.isDir (joinpath root l) = true ∧
      writtenPaths (runIteration check interval iM cM st img ts).2.2 =
        [joinpath (joinpath root l) (ts ++ ".jpg")]) ∧
    ((iM img).prediction = Labels.UNINTERESTING →
      st.fs.isDir (joinpath (joinpath root "uninteresting") ("un-" ++ ts ++ ".jpg")) = false →
      writtenPaths (runIteration check interval iM cM st img ts).2.2 =
        [joinpath (joinpath root "uninteresting") ("un-" ++ ts ++ ".jpg")]) := by
  obtain ⟨st', hset', hps, hpu, hsp, hrd, hud, hall, hfiles⟩ :=
    setupState_spec fs root labelLines hroot hfu hfl
  rw [hset'] at hset
  injection hset with hst
  subst hst
  constructor
  · intro hI l hcl hlmem hfresh
    have hdir : st'.fs.isDir (joinpath root l) = true := hall l hlmem
    refine ⟨hdir, ?_⟩
    have hlk : st'.save_paths.lookup ((cM img).prediction) = some (joinpath root l) := by
      rw [hsp, hcl]
      exact lookup_labelMap root _ l hlmem
    have hname : (ts ++ ".jpg") ≠ "" := append_ne_empty_right ts ".jpg" (by decide)
    have hsv := img_save_ok st'.fs (joinpath root l) (ts ++ ".jpg") hname hdir hfresh
    rw [runIteration_interesting_ok check interval iM cM st' img ts (joinpath root l) _ hI hlk hsv]
    simp [writtenPaths]
  · intro hU hfresh
    have hname : ("un-" ++ ts ++ ".jpg") ≠ "" :=
      append_ne_empty_right ("un-" ++ ts) ".jpg" (by decide)
    have hsv := img_save_ok st'.fs (joinpath root "uninteresting")
      ("un-" ++ ts ++ ".jpg") hname hud hfresh
    have hsv' : img_save st'.fs (joinpath st'.path_uninteresting ("un-" ++ ts ++ ".jpg")) =
        .ok ⟨st'.fs.dirs,
             joinpath (joinpath root "uninteresting") ("un-" ++ ts ++ ".jpg") :: st'.fs.files⟩ := by
      rw [hpu]
      exact hsv
    rw [runIteration_uninteresting_ok check interval iM cM st' img ts _ hU hsv']
    simp [writtenPaths, hpu]

theorem claim_C1_witness :
    setupState fsDemo rootDemo ["cat"] = .ok stDemo ∧
    stDemo.fs.isDir (joinpath rootDemo "cat") = true ∧
    writtenPaths (runIteration 5 1 interestingModel catModel stDemo 0 "T").2.2 =
      [joinpath (joinpath rootDemo "cat") ("T" ++ ".jpg")] :=
  ⟨rfl,
   ((claim_C1_routing fsDemo rootDemo ["cat"] 5 1 interestingModel catModel 0 "T" stDemo
      (by decide) (by decide) (by decide) rfl).1 (by decide) "cat"
      (by decide) (by decide) (by decide)).1,
   ((claim_C1_routing fsDemo rootDemo ["cat"] 5 1 interestingModel catModel 0 "T" stDemo
      (by decide) (by decide) (by decide) rfl).1 (by decide) "cat"
      (by decide) (by decide) (by decide)).2⟩

/-- Claim C2: an iteration in which the interest-stage classifier (either
script) or the category-stage classifier returns a label outside its
declared outcome space terminates the process and writes no image file
during that iteration: the interest stage exits via the else branch,
while a category label outside the label set raises an uncaught KeyError
before any save. -/
theorem claim_C2_unrecognized_terminates (fs : FS) (root : FsPath)
    (labelLines : List String) (check interval : Nat)
    (iM cM model : Nat → ClassificationResult) (cfs : FS) (ps : FsPath)
    (img : Nat) (ts : String) (st : LoopState)
    (hroot : fs.isDir root = true)
    (hfu : fs.isFile (joinpath root "uninteresting") = false)
    (hfl : ∀ l ∈ labelLines.map strip, fs.isFile (joinpath root l) = false)
    (hset : setupState fs root labelLines = .ok st) :
    (¬ (iM img).prediction = Labels.INTERESTING →
     ¬ (iM img).prediction = Labels.UNINTERESTING →
      (runIteration check interval iM cM st img ts).2.1.isTermination = true ∧
      writtenPaths (runIteration check interval iM cM st img ts).2.2 = [] ∧
      (runIteration check interval iM cM st img ts).1 = st) ∧
    ((iM img).prediction = Labels.INTERESTING →
      (cM img).prediction ∉ labelLines.map strip →
      (runIteration check interval iM cM st img ts).2.1.isTermination = true ∧
      writtenPaths (runIteration check interval iM cM st img ts).2.2 = [] ∧
      (runIteration check interval iM cM st img ts).1 = st) ∧
    (¬ (model img).prediction = Labels.INTERESTING →
     ¬ (model img).prediction = Labels.NOT_INTERESTING →
      (runIterationCI check interval model cfs ps img ts).2.1.isTermination = true ∧
      writtenPaths (runIterationCI check interval model cfs ps img ts).2.2 = [] ∧
      (runIterationCI check interval model cfs ps img ts).1 = cfs) := by
  obtain ⟨st', hset', hps, hpu, hsp, hrd, hud, hall, hfiles⟩ :=
    setupState_spec fs root labelLines hroot hfu hfl
  rw [hset'] at hset
  injection hset with hst
  subst hst
  refine ⟨fun hI hU => ?_, fun hI hout => ?_, fun hI hN => ?_⟩
  · rw [runIteration_unrecognized check interval iM cM st' img ts hI hU]
    simp [writtenPaths, IterOutcome.isTermination]
  · have hlk : st'.save_paths.lookup ((cM img).prediction) = none := by
      rw [hsp]
      exact lookup_labelMap_none root _ _ hout
    rw [runIteration_interesting_keyerror check interval iM cM st' img ts hI hlk]
    simp [writtenPaths, IterOutcome.isTermination]
  · rcases hhd : (model img).labels.head? with _ | lc
    · rw [runIterationCI_indexerror check interval model cfs ps img ts hhd]
      simp [writtenPaths, IterOutcome.isTermination]
    · rw [runIterationCI_unrecognized check interval model cfs ps img ts lc hhd hI hN]
      simp [writtenPaths, IterOutcome.isTermination]

theorem claim_C2_witness :
    setupState fsDemo rootDemo ["cat"] = .ok stDemo ∧
    (dogModel 0).prediction ∉ ["cat"].map strip ∧
    ((runIteration 5 1 interestingModel dogModel stDemo 0 "T").2.1.isTermination = true ∧
     writtenPaths (runIteration 5 1 interestingModel dogModel stDemo 0 "T").2.2 = [] ∧
     (runIteration 5 1 interestingModel dogModel stDemo 0 "T").1 = stDemo) :=
  ⟨rfl, by decide,
   (claim_C2_unrecognized_terminates fsDemo rootDemo ["cat"] 5 1 interestingModel dogModel
      interestingModel fsDemo rootDemo 0 "T" stDemo
      (by decide) (by decide) (by decide) rfl).2.1 (by decide) (by decide)⟩

/-- Claim C3 counterexample: with label set {cat}, an iteration whose
interest prediction is interesting and whose category prediction is dog
(outside the declared set) terminates via an uncaught KeyError without
the program printing any diagnostic, contradicting the claim that every
unrecognized label is reported by a printed diagnostic before
termination. -/
theorem claim_C3_counterexample :
    (dogModel 0).prediction ∉ ["cat"].map strip ∧
    printedMsgs (runIteration 5 1 interestingModel dogModel stDemo 0 "T").2.2 = [] ∧
    (runIteration 5 1 interestingModel dogModel stDemo 0 "T").2.1 =
      .terminated (.uncaught "KeyError: dog") := by
  decide

/-- Claim C3 (amended): when the interest classifier returns a label
outside its declared set the program prints a diagnostic naming that
label and terminates immediately via exit(), with no retry and no write;
when the category classifier returns a label outside the label set the
process also terminates immediately with no write, but via an uncaught
KeyError naming the label rather than a program-printed diagnostic. -/
theorem claim_C3_unrecognized_diagnostics (fs : FS) (root : FsPath)
    (labelLines : List String) (check interval : Nat)
    (iM cM : Nat → ClassificationResult)
    (img : Nat) (ts : String) (st : LoopState)
    (hroot : fs.isDir root = true)
    (hfu : fs.isFile (joinpath root "uninteresting") = false)
    (hfl : ∀ l ∈ labelLines.map strip, fs.isFile (joinpath root l) = false)
    (hset : setupState fs root labelLines = .ok st) :
    (¬ (iM img).prediction = Labels.INTERESTING →
     ¬ (iM img).prediction = Labels.UNINTERESTING →
      (runIteration check interval iM cM st img ts).2.1 = .terminated (.sysExit none) ∧
      printedMsgs (runIteration check interval iM cM st img ts).2.2 =
        ["Unexpected result: " ++ (iM img).prediction] ∧
      writtenPaths (runIteration check interval iM cM st img ts).2.2 = []) ∧
    ((iM img).prediction = Labels.INTERESTING →
      (cM img).prediction ∉ labelLines.map strip →
      (runIteration check interval iM cM st img ts).2.1 =
        .terminated (.uncaught ("KeyError: " ++ (cM img).prediction)) ∧
      printedMsgs (runIteration check interval iM cM st img ts).2.2 = [] ∧
      writtenPaths (runIteration check interval iM cM st img ts).2.2 = []) := by
  obtain ⟨st', hset', hps, hpu, hsp, hrd, hud, hall, hfiles⟩ :=
    setupState_spec fs root labelLines hroot hfu hfl
  rw [hset'] at hset
  injection hset with hst
  subst hst
  refine ⟨fun hI hU => ?_, fun hI hout => ?_⟩
  · rw [runIteration_unrecognized check interval iM cM st' img ts hI hU]
    simp [printedMsgs, writtenPaths]
  · have hlk : st'.save_paths.lookup ((cM img).prediction) = none := by
      rw [hsp]
      exact lookup_labelMap_none root _ _ hout
    rw [runIteration_interesting_keyerror check interval iM cM st' img ts hI hlk]
    simp [printedMsgs, writtenPaths]

theorem claim_C3_witness :
    setupState fsDemo rootDemo ["cat"] = .ok stDemo ∧
    ((runIteration 5 1 bananaModel catModel stDemo 0 "T").2.1 =
       .terminated (.sysExit none) ∧
     printedMsgs (runIteration 5 1 bananaModel catModel stDemo 0 "T").2.2 =
       ["Unexpected result: " ++ (bananaModel 0).prediction] ∧
     writtenPaths (runIteration 5 1 bananaModel catModel stDemo 0 "T").2.2 = []) :=
  ⟨rfl,
   (claim_C3_unrecognized_diagnostics fsDemo rootDemo ["cat"] 5 1 bananaModel catModel
      0 "T" stDemo (by decide) (by decide) (by decide) rfl).1 (by decide) (by decide)⟩

theorem runIterationCI_notInteresting_mkerr (check interval : Nat)
    (model : Nat → ClassificationResult) (fs : FS) (path_save : FsPath)
    (img : Nat) (ts : String) (lc : String × Nat) (e : String)
    (hhd : (model img).labels.head? = some lc)
    (hN : (model img).prediction = Labels.NOT_INTERESTING)
    (hmk : (if fs.pathExists (joinpath path_save "uninteresting") then Except.ok fs
            else os_mkdir fs (joinpath path_save "uninteresting")) = Except.error e) :
    runIterationCI check interval model fs path_save img ts =
      (fs, .terminated (.uncaught e),
       [.annotate none, .capture img,
        .predictInterest img (model img).prediction,
        .annotate (some ((model img).prediction ++ "\n" ++ toString lc.2 ++ "\n" ++ ts))]) := by
  have hI : ¬ (model img).prediction = Labels.INTERESTING := by
    rw [hN]; decide
  simp only [runIterationCI, hhd, hI, if_false, hN, if_true, hmk]
  rfl

theorem runIterationCI_notInteresting_saveerr (check interval : Nat)
    (model : Nat → ClassificationResult) (fs : FS) (path_save : FsPath)
    (img : Nat) (ts : String) (lc : String × Nat) (fs1 : FS) (e : String)
    (hhd : (model img).labels.head? = some lc)
    (hN : (model img).prediction = Labels.NOT_INTERESTING)
    (hmk : (if fs.pathExists (joinpath path_save "uninteresting") then Except.ok fs
            else os_mkdir fs (joinpath path_save "uninteresting")) = Except.ok fs1)
    (hsv : img_save fs1 (joinpath (joinpath path_save "uninteresting")
            ("un-" ++ ts ++ ".jpg")) = .error e) :
    runIterationCI check interval model fs path_save img ts =
      (fs1, .terminated (.uncaught e),
       [.annotate none, .capture img,
        .predictInterest img (model img).prediction,
        .annotate (some ((model img).prediction ++ "\n" ++ toString lc.2 ++ "\n" ++ ts))]) := by
  have hI : ¬ (model img).prediction = Labels.INTERESTING := by
    rw [hN]; decide
  simp only [runIterationCI, hhd, hI, if_false, hN, if_true, hmk, hsv]
  rfl

/-- Claim C8: the routing decision is a function of the discrete labels
alone and never depends on a confidence value: two iterations whose
classifiers return the same predictions but arbitrary different
confidence lists produce identical destination paths, outcomes, and
filesystem states, in both scripts (in the single-stage script only the
preview annotation text can differ). -/
theorem claim_C8_confidence_independence (check interval : Nat)
    (iM1 iM2 cM1 cM2 m1 m2 : Nat → ClassificationResult)
    (st : LoopState) (fs : FS) (ps : FsPath) (img : Nat) (ts : String)
    (hI : (iM1 img).prediction = (iM2 img).prediction)
    (hC : (cM1 img).prediction = (cM2 img).prediction)
    (hM : (m1 img).prediction = (m2 img).prediction)
    (h1 : (m1 img).labels ≠ []) (h2 : (m2 img).labels ≠ []) :
    (runIteration check interval iM1 cM1 st img ts =
       runIteration check interval iM2 cM2 st img ts) ∧
    (writtenPaths (runIterationCI check interval m1 fs ps img ts).2.2 =
       writtenPaths (runIterationCI check interval m2 fs ps img ts).2.2 ∧
     (runIterationCI check interval m1 fs ps img ts).2.1 =
       (runIterationCI check interval m2 fs ps img ts).2.1 ∧
     (runIterationCI check interval m1 fs ps img ts).1 =
       (runIterationCI check interval m2 fs ps img ts).1) := by
  constructor
  · simp only [runIteration, hI, hC]
  · obtain ⟨a1, r1, hm1⟩ := List.exists_cons_of_ne_nil h1
    obtain ⟨a2, r2, hm2⟩ := List.exists_cons_of_ne_nil h2
    have hh1 : (m1 img).labels.head? = some a1 := by rw [hm1]; rfl
    have hh2 : (m2 img).labels.head? = some a2 := by rw [hm2]; rfl
    by_cases hInt : (m2 img).prediction = Labels.INTERESTING
    · have hInt1 : (m1 img).prediction = Labels.INTERESTING := hM.trans hInt
      rcases hsv : img_save fs (joinpath ps (ts ++ ".jpg")) with e | fs2
      · rw [runIterationCI_interesting_saveerr check interval m1 fs ps img ts a1 e hh1 hInt1 hsv,
            runIterationCI_interesting_saveerr check interval m2 fs ps img ts a2 e hh2 hInt hsv]
        simp [writtenPaths]
      · rw [runIterationCI_interesting_ok check interval m1 fs ps img ts a1 fs2 hh1 hInt1 hsv,
            runIterationCI_interesting_ok check interval m2 fs ps img ts a2 fs2 hh2 hInt hsv]
        simp [writtenPaths]
    · have hInt1 : ¬ (m1 img).prediction = Labels.INTERESTING := by
        rw [hM]; exact hInt
      by_cases hN : (m2 img).prediction = Labels.NOT_INTERESTING
      · have hN1 : (m1 img).prediction = Labels.NOT_INTERESTING := hM.trans hN
        rcases hmk : (if fs.pathExists (joinpath ps "uninteresting") then Except.ok fs
            else os_mkdir fs (joinpath ps "uninteresting")) with e | fsm
        · rw [runIterationCI_notInteresting_mkerr check interval m1 fs ps img ts a1 e hh1 hN1 hmk,
              runIterationCI_notInteresting_mkerr check interval m2 fs ps img ts a2 e hh2 hN hmk]
          simp [writtenPaths]
        · rcases hsv : img_save fsm (joinpath (joinpath ps "uninteresting")
              ("un-" ++ ts ++ ".jpg")) with e | fs2
          · rw [runIterationCI_notInteresting_saveerr check interval m1 fs ps img ts a1 fsm e hh1 hN1 hmk hsv,
                runIterationCI_notInteresting_saveerr check interval m2 fs ps img ts a2 fsm e hh2 hN hmk hsv]
            simp [writtenPaths]
          · rw [runIterationCI_notInteresting_ok check interval m1 fs ps img ts a1 fsm fs2 hh1 hN1 hmk hsv,
                runIterationCI_notInteresting_ok check interval m2 fs ps img ts a2 fsm fs2 hh2 hN hmk hsv]
            simp [writtenPaths]
      · have hN1 : ¬ (m1 img).prediction = Labels.NOT_INTERESTING := by
          rw [hM]; exact hN
        rw [runIterationCI_unrecognized check interval m1 fs ps img ts a1 hh1 hInt1 hN1,
            runIterationCI_unrecognized check interval m2 fs ps img ts a2 hh2 hInt hN]
        simp [writtenPaths]

theorem claim_C8_witness :
    ((fun _ => ClassificationResult.mk "interesting" [("interesting", 95)]) 0).prediction =
      ((fun _ => ClassificationResult.mk "interesting" [("interesting", 5)]) 0).prediction ∧
    writtenPaths (runIterationCI 5 1
        (fun _ => ClassificationResult.mk "interesting" [("interesting", 95)])
        fsDemo rootDemo 0 "T").2.2 =
      writtenPaths (runIterationCI 5 1
        (fun _ => ClassificationResult.mk "interesting" [("interesting", 5)])
        fsDemo rootDemo 0 "T").2.2 :=
  ⟨by decide,
   (claim_C8_confidence_independence 5 1 interestingModel interestingModel catModel catModel
      (fun _ => ClassificationResult.mk "interesting" [("interesting", 95)])
      (fun _ => ClassificationResult.mk "interesting" [("interesting", 5)])
      stDemo fsDemo rootDemo 0 "T"
      (by decide) (by decide) (by decide) (by decide) (by decide)).2.1⟩

/-- Claim C9 counterexample: a startup path-validation failure (empty
filesystem, so the save path does not exist) terminates the process via
a bare exit(), i.e. SystemExit None, whose interpreter exit status is 0
— not a non-zero-equivalent exit. -/
theorem claim_C9_counterexample :
    (mainStartup ⟨[], []⟩ ["out"] ["m1"] ["m2"]).2.2 = some (.sysExit none) ∧
    ((mainStartup ⟨[], []⟩ ["out"] ["m1"] ["m2"]).2.2.map PyTermination.status) = some 0 := by
  decide

/-- Claim C9 (amended): on an operator interrupt the process prints an
acknowledgment and exits with status 0; a startup validation failure of
any of the three paths (save, interest model, category model) and an
unrecognized interest-classification result each print a diagnostic and
terminate the process immediately — but via a bare exit(), whose exit
status is also 0, so these failure exits carry the same exit status as a
graceful shutdown rather than a non-zero one; only an unrecognized
category label terminates via an uncaught KeyError naming the label,
whose exit status is 1. -/
theorem claim_C9_exit_behavior
    (sfs : FS) (save_to interest categories : FsPath)
    (fs : FS) (root : FsPath) (labelLines : List String)
    (check interval : Nat) (iM cM : Nat → ClassificationResult)
    (img : Nat) (ts : String) (st : LoopState)
    (hbad : (sfs.pathExists save_to = false ∨ sfs.isDir save_to = false) ∨
            (sfs.pathExists interest = false ∨ sfs.isDir interest = false) ∨
            (sfs.pathExists categories = false ∨ sfs.isDir categories = false))
    (hroot : fs.isDir root = true)
    (hfu : fs.isFile (joinpath root "uninteresting") = false)
    (hfl : ∀ l ∈ labelLines.map strip, fs.isFile (joinpath root l) = false)
    (hset : setupState fs root labelLines = .ok st) :
    (keyboardInterruptHandler.1 = ["", "Caught interrupt, exiting..."] ∧
     keyboardInterruptHandler.2.status = 0) ∧
    ((mainStartup sfs save_to interest categories).1 = none ∧
     (∃ e, (validate_path sfs save_to = .error e ∨
            validate_path sfs interest = .error e ∨
            validate_path sfs categories = .error e) ∧
       (mainStartup sfs save_to interest categories).2.1.getLast? =
         some (.printMsg e)) ∧
     (mainStartup sfs save_to interest categories).2.2 = some (.sysExit none) ∧
     PyTermination.status (.sysExit none) = 0) ∧
    (¬ (iM img).prediction = Labels.INTERESTING →
     ¬ (iM img).prediction = Labels.UNINTERESTING →
      (runIteration check interval iM cM st img ts).2.1 = .terminated (.sysExit none) ∧
      printedMsgs (runIteration check interval iM cM st img ts).2.2 =
        ["Unexpected result: " ++ (iM img).prediction] ∧
      PyTermination.status (.sysExit none) = 0) ∧
    ((iM img).prediction = Labels.INTERESTING →
      (cM img).prediction ∉ labelLines.map strip →
      (runIteration check interval iM cM st img ts).2.1 =
        .terminated (.uncaught ("KeyError: " ++ (cM img).prediction)) ∧
      PyTermination.status (.uncaught ("KeyError: " ++ (cM img).prediction)) = 1) := by
  obtain ⟨st', hset', hps, hpu, hsp, hrd, hud, hall, hfiles⟩ :=
    setupState_spec fs root labelLines hroot hfu hfl
  rw [hset'] at hset
  injection hset with hst
  subst hst
  refine ⟨⟨rfl, rfl⟩, ?_, fun hI hU => ?_, fun hI hout => ?_⟩
  · rcases validate_path_cases sfs save_to with ⟨he1, hd1, hv1⟩ | ⟨_, e1, hv1⟩
    · rcases validate_path_cases sfs interest with ⟨he2, hd2, hv2⟩ | ⟨_, e2, hv2⟩
      · rcases validate_path_cases sfs categories with ⟨he3, hd3, hv3⟩ | ⟨_, e3, hv3⟩
        · exfalso
          rcases hbad with (h | h) | (h | h) | (h | h) <;> simp_all
        · refine ⟨?_, ⟨e3, Or.inr (Or.inr hv3), ?_⟩, ?_, rfl⟩ <;>
            simp [mainStartup, hv1, hv2, hv3]
      · refine ⟨?_, ⟨e2, Or.inr (Or.inl hv2), ?_⟩, ?_, rfl⟩ <;>
          simp [mainStartup, hv1, hv2]
    · refine ⟨?_, ⟨e1, Or.inl hv1, ?_⟩, ?_, rfl⟩ <;> simp [mainStartup, hv1]
  · rw [runIteration_unrecognized check interval iM cM st' img ts hI hU]
    exact ⟨rfl, by simp [printedMsgs], rfl⟩
  · have hlk : st'.save_paths.lookup ((cM img).prediction) = none := by
      rw [hsp]
      exact lookup_labelMap_none root _ _ hout
    rw [runIteration_interesting_keyerror check interval iM cM st' img ts hI hlk]
    exact ⟨rfl, rfl⟩

theorem claim_C9_witness :
    (FS.mk [["out"]] []).pathExists ["m1"] = false ∧
    ((mainStartup ⟨[["out"]], []⟩ ["out"] ["m1"] ["m2"]).1 = none ∧
     (mainStartup ⟨[["out"]], []⟩ ["out"] ["m1"] ["m2"]).2.2 = some (.sysExit none) ∧
     PyTermination.status (.sysExit none) = 0) ∧
    ((runIteration 5 1 interestingModel dogModel stDemo 0 "T").2.1 =
       .terminated (.uncaught ("KeyError: " ++ (dogModel 0).prediction)) ∧
     PyTermination.status (.uncaught ("KeyError: " ++ (dogModel 0).prediction)) = 1) :=
  ⟨by decide,
   ⟨(claim_C9_exit_behavior ⟨[["out"]], []⟩ ["out"] ["m1"] ["m2"] fsDemo rootDemo
       ["cat"] 5 1 interestingModel dogModel 0 "T" stDemo
       (Or.inr (Or.inl (Or.inl (by decide))))
       (by decide) (by decide) (by decide) rfl).2.1.1,
    (claim_C9_exit_behavior ⟨[["out"]], []⟩ ["out"] ["m1"] ["m2"] fsDemo rootDemo
       ["cat"] 5 1 interestingModel dogModel 0 "T" stDemo
       (Or.inr (Or.inl (Or.inl (by decide))))
       (by decide) (by decide) (by decide) rfl).2.1.2.2.1,
    (claim_C9_exit_behavior ⟨[["out"]], []⟩ ["out"] ["m1"] ["m2"] fsDemo rootDemo
       ["cat"] 5 1 interestingModel dogModel 0 "T" stDemo
       (Or.inr (Or.inl (Or.inl (by decide))))
       (by decide) (by decide) (by decide) rfl).2.1.2.2.2⟩,
   (claim_C9_exit_behavior ⟨[["out"]], []⟩ ["out"] ["m1"] ["m2"] fsDemo rootDemo
       ["cat"] 5 1 interestingModel dogModel 0 "T" stDemo
       (Or.inr (Or.inl (Or.inl (by decide))))
       (by decide) (by decide) (by decide) rfl).2.2.2 (by decide) (by decide)⟩

/-- Claim C10: the routing table is keyed by each line of labels.txt
after stripping surrounding whitespace, with no uniqueness or
non-emptiness check: setup succeeds for any line list (duplicate lines
map to the same directory without error), the empty-string label's
resolved directory is the save root itself, and a category prediction
equal to the empty string is written directly into the save root rather
than into a subdirectory. -/
theorem claim_C10_label_hygiene (fs : FS) (root : FsPath)
    (labelLines : List String) (check interval : Nat)
    (iM cM : Nat → ClassificationResult) (img : Nat) (ts : String)
    (hroot : fs.isDir root = true)
    (hfu : fs.isFile (joinpath root "uninteresting") = false)
    (hfl : ∀ l ∈ labelLines.map strip, fs.isFile (joinpath root l) = false) :
    ∃ st, setupState fs root labelLines = .ok st ∧
      st.save_paths = (labelLines.map strip).map (fun l => (l, joinpath root l)) ∧
      (∀ l ∈ labelLines.map strip, st.save_paths.lookup l = some (joinpath root l)) ∧
      joinpath root "" = root ∧
      ((iM img).prediction = Labels.INTERESTING →
        (cM img).prediction = "" →
        "" ∈ labelLines.map strip →
        st.fs.isDir (joinpath root (ts ++ ".jpg")) = false →
        writtenPaths (runIteration check interval iM cM st img ts).2.2 =
          [root ++ [ts ++ ".jpg"]]) := by
  obtain ⟨st', hset', hps, hpu, hsp, hrd, hud, hall, hfiles⟩ :=
    setupState_spec fs root labelLines hroot hfu hfl
  have hj0 : joinpath root "" = root := by simp [joinpath]
  refine ⟨st', hset', hsp, ?_, hj0, ?_⟩
  · intro l hl
    rw [hsp]
    exact lookup_labelMap root _ l hl
  · intro hI hcl hmem hfresh
    have hlk : st'.save_paths.lookup ((cM img).prediction) = some root := by
      rw [hsp, hcl]
      rw [show ((labelLines.map strip).map fun x => (x, joinpath root x)).lookup "" =
            some (joinpath root "") from lookup_labelMap root _ "" hmem, hj0]
    have hname : (ts ++ ".jpg") ≠ "" := append_ne_empty_right ts ".jpg" (by decide)
    have hfresh' : st'.fs.isDir (joinpath root (ts ++ ".jpg")) = false := hfresh
    have hsv := img_save_ok st'.fs root (ts ++ ".jpg") hname hrd hfresh'
    rw [runIteration_interesting_ok check interval iM cM st' img ts root _ hI hlk hsv]
    have hje : joinpath root (ts ++ ".jpg") = root ++ [ts ++ ".jpg"] :=
      joinpath_of_ne root (ts ++ ".jpg") hname
    simp [writtenPaths, hje]

theorem claim_C10_witness :
    (setupState fsDemo rootDemo ["cat", "cat", " "]).isOk = true := by
  obtain ⟨st, hset, -, -, -, -⟩ :=
    claim_C10_label_hygiene fsDemo rootDemo ["cat", "cat", " "] 5 1
      interestingModel emptyLabelModel 0 "T" (by decide) (by decide) (by decide)
  rw [hset]
  rfl
